import Mathlib

/-
Verification development for `EventVisualisation/View/src/MultiView.cxx`
(ALICE O2 event display, class `o2::event_visualisation::MultiView`).

The class coordinates six render-engine scenes (3D/R-Phi/Z-Y, geometry and
event each), two stateful projection managers (R-Phi and Z-Y, each with a
current depth), a lookup list `mDetectors` of registered detector shapes and
a static singleton pointer `sInstance`.  We embed this state shallowly:

  * a scene is a list of scene elements; an element records whether it was
    added directly (`gEve->AddElement`) or imported through a projection
    manager (`ImportElements`), and in the latter case the depth that was
    current on the manager at import time;
  * the current event container (`gEve->GetCurrentEvent()`) is an optional
    list of elements, `none` when no current event exists;
  * the projection managers are their current depths (`Int`);
  * the external geometry provider (`GeometryManager::getGeometryForDetector`)
    is a function `String → Option TEveGeoShape`;
  * `exit(-1)` on a null geometry and the segfault on a missing current event
    are modelled as the absence of a post-state (`Except.error` carrying the
    logged message and the state at termination, resp. `Option.none`).
-/

namespace O2MultiView

/-- A renderable detector shape (`TEveGeoShape`): carries its element name
(used by `getDetectorGeometry` for lookup) and an identity tag so that two
shapes with the same name are distinguishable instances. -/
structure TEveGeoShape where
  elementName : String
  shapeId : Nat
deriving DecidableEq, Repr

/-- An element that can live inside a scene or the current event container:
a detector geometry shape, an event element (`TEveElement`, identified by a
tag), or a projection-axes overlay (added by the constructor when the
configuration enables axes). -/
inductive Elem where
  | shape (s : TEveGeoShape)
  | event (eid : Nat)
  | axes (projIdx : Nat)
deriving DecidableEq, Repr

/-- A scene entry: either directly added (`gEve->AddElement`) or imported
through a projection manager (`TEveProjectionManager::ImportElements`), in
which case it records the depth that was current on that manager at import
time. -/
inductive SceneElem where
  | direct (e : Elem)
  | imported (e : Elem) (depth : Int)
deriving DecidableEq, Repr

/-- The mutable state of the `MultiView` object together with the parts of
the render engine it drives: the three geometry scenes, the two projected
event scenes, the current event container, the current depths of the two
projection managers and the `mDetectors` lookup list. -/
structure MultiViewState where
  scene3dGeom : List SceneElem
  sceneRphiGeom : List SceneElem
  sceneZYGeom : List SceneElem
  sceneRphiEvent : List SceneElem
  sceneZYEvent : List SceneElem
  currentEvent : Option (List Elem)
  rphiDepth : Int
  zyDepth : Int
  mDetectors : List TEveGeoShape
deriving DecidableEq, Repr

/-- The state right after the `MultiView` constructor ran: all scenes empty
except that, when the configuration enables axes, one axes overlay is added
to each projected geometry scene; both projection managers have the default
current depth 0 (`TEveProjectionManager` default); no current event exists
yet; the lookup list is empty. -/
def initState (showAxes : Bool) : MultiViewState :=
  { scene3dGeom := []
    sceneRphiGeom := if showAxes then [SceneElem.direct (Elem.axes 0)] else []
    sceneZYGeom := if showAxes then [SceneElem.direct (Elem.axes 1)] else []
    sceneRphiEvent := []
    sceneZYEvent := []
    currentEvent := none
    rphiDepth := 0
    zyDepth := 0
    mDetectors := [] }

/-- `MultiView::getDetectorGeometry`: linear scan of `mDetectors`, returning
the first shape whose element name equals the requested detector name, and
`none` (null) when there is no match. -/
def getDetectorGeometry (s : MultiViewState) (detectorName : String) :
    Option TEveGeoShape :=
  s.mDetectors.find? (fun geom => geom.elementName == detectorName)

/-- `MultiView::registerGeometry`: a null geometry logs
"MultiView::registerGeometry -- geometry is NULL!" and calls `exit(-1)`; the
error value carries the logged message and the state at the moment of
termination.  Otherwise: if `threeD`, add the shape directly to the 3D
geometry scene; if `rPhi`, set the R-Phi projection depth to -10, import the
shape into the R-Phi geometry scene (at the now-current depth) and reset the
depth to 0; if `zy`, the analogous bracket on the Z-Y projection. -/
def registerGeometry (s : MultiViewState) (geom : Option TEveGeoShape)
    (threeD rPhi zy : Bool) : Except (String × MultiViewState) MultiViewState :=
  match geom with
  | none => Except.error ("MultiView::registerGeometry -- geometry is NULL!", s)
  | some g =>
    let s1 := if threeD then
        { s with scene3dGeom := s.scene3dGeom ++ [SceneElem.direct (Elem.shape g)] }
      else s
    let s2 := if rPhi then
        let sa := { s1 with rphiDepth := -10 }
        let sb := { sa with
          sceneRphiGeom := sa.sceneRphiGeom ++ [SceneElem.imported (Elem.shape g) sa.rphiDepth] }
        { sb with rphiDepth := 0 }
      else s1
    let s3 := if zy then
        let sa := { s2 with zyDepth := -10 }
        let sb := { sa with
          sceneZYGeom := sa.sceneZYGeom ++ [SceneElem.imported (Elem.shape g) sa.zyDepth] }
        { sb with zyDepth := 0 }
      else s2
    Except.ok s3

/-- `MultiView::drawGeometryForDetector`: resolves the detector name through
the geometry provider (external `GeometryManager`, passed here as a
function), registers the resulting shape, and only then pushes it onto the
`mDetectors` lookup list — so a null provider result terminates inside
`registerGeometry` before any list mutation. -/
def drawGeometryForDetector (provider : String → Option TEveGeoShape)
    (s : MultiViewState) (detectorName : String) (threeD rPhi zy : Bool) :
    Except (String × MultiViewState) MultiViewState :=
  match provider detectorName with
  | none => registerGeometry s none threeD rPhi zy
  | some g =>
    (registerGeometry s (some g) threeD rPhi zy).map
      (fun s1 => { s1 with mDetectors := s1.mDetectors ++ [g] })

/-- `MultiView::destroyAllGeometries`: destroys all elements of the three
geometry scenes and clears the lookup list, in one call. -/
def destroyAllGeometries (s : MultiViewState) : MultiViewState :=
  { s with scene3dGeom := [], sceneRphiGeom := [], sceneZYGeom := [],
           mDetectors := [] }

/-- Modelled from the spec: `EVisualisationDataType::NdataTypes` comes from
`VisualisationConstants.h`, which is not among the sources; the spec only
says event collections have one slot per visualization data type, a fixed
small set.  The concrete value is irrelevant to every claim below. -/
def NdataTypes : Nat := 3

/-- One iteration of the first loop of `MultiView::registerElements`: add
the element to the current event container and import it into the Z-Y event
scene through the Z-Y projection at its current depth. -/
def addDefaultEventElem (t : MultiViewState) (e : Nat) : MultiViewState :=
  { t with
    currentEvent := t.currentEvent.map (fun l => l ++ [Elem.event e])
    sceneZYEvent := t.sceneZYEvent ++ [SceneElem.imported (Elem.event e) t.zyDepth] }

/-- One iteration of the second loop of `MultiView::registerElements`:
bring the phi-variant element into the R-Phi event scene through the R-Phi
projection at its current depth. -/
def addPhiEventElem (t : MultiViewState) (e : Nat) : MultiViewState :=
  { t with
    sceneRphiEvent := t.sceneRphiEvent ++ [SceneElem.imported (Elem.event e) t.rphiDepth] }

/-- `MultiView::registerElements`: for each data type index, adds the
default-variant element to the current event container and imports it into
the Z-Y event scene; then, for each data type index, imports the phi-variant
element into the R-Phi event scene.  The code dereferences
`gEve->GetCurrentEvent()` without a check; `none` models the crash when no
current event exists. -/
def registerElements (s : MultiViewState) (elements phiElements : Nat → Nat) :
    Option MultiViewState :=
  match s.currentEvent with
  | none => none
  | some _ =>
    let s1 := (List.range NdataTypes).foldl
      (fun t i => addDefaultEventElem t (elements i)) s
    let s2 := (List.range NdataTypes).foldl
      (fun t i => addPhiEventElem t (phiElements i)) s1
    some s2

/-- `MultiView::registerElement`: adds the element to the current event
container and imports it into both projected event scenes, each at the depth
currently active on the corresponding projection manager.  As in
`registerElements`, a missing current event is a crash, modelled by `none`. -/
def registerElement (s : MultiViewState) (event : Nat) : Option MultiViewState :=
  match s.currentEvent with
  | none => none
  | some evs =>
    let s1 := { s with currentEvent := some (evs ++ [Elem.event event]) }
    let s2 := { s1 with
      sceneRphiEvent := s1.sceneRphiEvent ++ [SceneElem.imported (Elem.event event) s1.rphiDepth] }
    some { s2 with
      sceneZYEvent := s2.sceneZYEvent ++ [SceneElem.imported (Elem.event event) s2.zyDepth] }

/-- `MultiView::destroyAllEvents`: if a current event container exists,
removes its elements; then destroys all elements of the two projected event
scenes.  The projected scenes are cleared even when no current event
exists. -/
def destroyAllEvents (s : MultiViewState) : MultiViewState :=
  let s1 := match s.currentEvent with
    | none => s
    | some _ => { s with currentEvent := some [] }
  { s1 with sceneRphiEvent := [], sceneZYEvent := [] }

/-- The process-global part of the class: the static `MultiView::sInstance`
pointer, modelled as an optional instance identity, together with a supply
of fresh identities for `new MultiView()`. -/
structure GlobalState where
  sInstance : Option Nat
  nextId : Nat
deriving DecidableEq, Repr

/-- The tail of the `MultiView` constructor: `sInstance = this`, with `this`
a fresh instance identity. -/
def constructMultiView (g : GlobalState) : GlobalState :=
  { sInstance := some g.nextId, nextId := g.nextId + 1 }

/-- `MultiView::getInstance`: if `sInstance` is null, run the constructor
(which sets `sInstance`); return the (possibly updated) global state and the
value of `sInstance` that the function returns. -/
def getInstance (g : GlobalState) : GlobalState × Option Nat :=
  let g1 := if g.sInstance.isNone then constructMultiView g else g
  (g1, g1.sInstance)

/-- The operations of the exposed `MultiView` API that mutate state, plus
one render-engine action: the current event container is owned by the
engine's event manager (external to this file), which can install or drop
it between calls — modelled from the spec, which treats the engine as an
opaque collaborator owning the scenes and the current event. -/
inductive MVOp where
  | drawGeometry (provider : String → Option TEveGeoShape) (name : String)
      (threeD rPhi zy : Bool)
  | regGeometry (geom : Option TEveGeoShape) (threeD rPhi zy : Bool)
  | regElements (elements phiElements : Nat → Nat)
  | regElement (event : Nat)
  | destroyGeoms
  | destroyEvents
  | redraw
  | engineSetCurrentEvent (evs : Option (List Elem))

/-- Apply one operation; `none` models process termination (the `exit(-1)`
on a null geometry) or a crash (missing current event container). -/
def applyOp (op : MVOp) (s : MultiViewState) : Option MultiViewState :=
  match op with
  | MVOp.drawGeometry p n t r z => (drawGeometryForDetector p s n t r z).toOption
  | MVOp.regGeometry g t r z => (registerGeometry s g t r z).toOption
  | MVOp.regElements e pe => registerElements s e pe
  | MVOp.regElement e => registerElement s e
  | MVOp.destroyGeoms => some (destroyAllGeometries s)
  | MVOp.destroyEvents => some (destroyAllEvents s)
  | MVOp.redraw => some s
  | MVOp.engineSetCurrentEvent evs => some { s with currentEvent := evs }

/-- Run a sequence of operations from a state; `none` as soon as one of them
terminates the process. -/
def runOps : List MVOp → MultiViewState → Option MultiViewState
  | [], s => some s
  | op :: ops, s => (applyOp op s).bind (runOps ops)

/-- A state is reachable when some sequence of operations produces it from
the post-constructor state. -/
def Reachable (s : MultiViewState) : Prop :=
  ∃ showAxes ops, runOps ops (initState showAxes) = some s

/-- The full system state for singleton reasoning: the static pointer plus
the view state the instance methods act on. -/
structure SystemState where
  global : GlobalState
  view : MultiViewState

/-- Instance methods act on the view state only; none of them assigns the
static `sInstance` pointer (only the constructor does). -/
def applySysOp (op : MVOp) (s : SystemState) : Option SystemState :=
  (applyOp op s.view).map (fun v => { s with view := v })

/-! ### Structural lemmas -/

/-- Explicit description of a successful `registerGeometry`: each requested
scene gains exactly one entry (the R-Phi and Z-Y imports recorded at depth
-10), each projection depth that was bracketed ends at 0 and is otherwise
untouched, and nothing else changes. -/
lemma registerGeometry_ok (s : MultiViewState) (g : TEveGeoShape)
    (threeD rPhi zy : Bool) :
    registerGeometry s (some g) threeD rPhi zy = Except.ok
      { s with
        scene3dGeom :=
          s.scene3dGeom ++ if threeD then [SceneElem.direct (Elem.shape g)] else []
        sceneRphiGeom :=
          s.sceneRphiGeom ++ if rPhi then [SceneElem.imported (Elem.shape g) (-10)] else []
        sceneZYGeom :=
          s.sceneZYGeom ++ if zy then [SceneElem.imported (Elem.shape g) (-10)] else []
        rphiDepth := if rPhi then 0 else s.rphiDepth
        zyDepth := if zy then 0 else s.zyDepth } := by
  cases threeD <;> cases rPhi <;> cases zy <;> simp [registerGeometry]

/-- A successful `drawGeometryForDetector` is the corresponding successful
`registerGeometry` on the resolved shape followed by appending that shape to
the lookup list. -/
lemma drawGeometryForDetector_ok (provider : String → Option TEveGeoShape)
    (s : MultiViewState) (detectorName : String) (g : TEveGeoShape)
    (threeD rPhi zy : Bool) (hp : provider detectorName = some g) :
    drawGeometryForDetector provider s detectorName threeD rPhi zy = Except.ok
      { s with
        scene3dGeom :=
          s.scene3dGeom ++ if threeD then [SceneElem.direct (Elem.shape g)] else []
        sceneRphiGeom :=
          s.sceneRphiGeom ++ if rPhi then [SceneElem.imported (Elem.shape g) (-10)] else []
        sceneZYGeom :=
          s.sceneZYGeom ++ if zy then [SceneElem.imported (Elem.shape g) (-10)] else []
        rphiDepth := if rPhi then 0 else s.rphiDepth
        zyDepth := if zy then 0 else s.zyDepth
        mDetectors := s.mDetectors ++ [g] } := by
  simp [drawGeometryForDetector, hp, registerGeometry_ok, Except.map]

/-- Folding the first loop body of `registerElements` over any index list
appends the mapped elements to the current event container and, imported at
the (unchanged) Z-Y depth, to the Z-Y event scene, touching nothing else. -/
lemma foldl_addDefaultEventElem (el : Nat → Nat) (is : List Nat)
    (s : MultiViewState) :
    is.foldl (fun t i => addDefaultEventElem t (el i)) s =
      { s with
        currentEvent := s.currentEvent.map
          (fun l => l ++ is.map (fun i => Elem.event (el i)))
        sceneZYEvent := s.sceneZYEvent ++
          is.map (fun i => SceneElem.imported (Elem.event (el i)) s.zyDepth) } := by
  induction is generalizing s with
  | nil =>
    simp
  | cons a is ih =>
    simp only [List.foldl_cons, List.map_cons, ih]
    simp [addDefaultEventElem, Option.map_map, Function.comp_def, List.append_assoc]

/-- Folding the second loop body of `registerElements` over any index list
appends the mapped phi-variant elements, imported at the (unchanged) R-Phi
depth, to the R-Phi event scene, touching nothing else. -/
lemma foldl_addPhiEventElem (ph : Nat → Nat) (is : List Nat)
    (s : MultiViewState) :
    is.foldl (fun t i => addPhiEventElem t (ph i)) s =
      { s with
        sceneRphiEvent := s.sceneRphiEvent ++
          is.map (fun i => SceneElem.imported (Elem.event (ph i)) s.rphiDepth) } := by
  induction is generalizing s with
  | nil =>
    simp
  | cons a is ih =>
    simp only [List.foldl_cons, List.map_cons, ih]
    simp [addPhiEventElem]

/-- Explicit description of a successful `registerElements`: the current
event container gains the `NdataTypes` default-variant elements, the Z-Y
event scene gains them imported at the current Z-Y depth, the R-Phi event
scene gains the `NdataTypes` phi-variant elements imported at the current
R-Phi depth, and nothing else changes (in particular neither depth). -/
lemma registerElements_ok (s : MultiViewState) (el ph : Nat → Nat)
    (evs : List Elem) (hev : s.currentEvent = some evs) :
    registerElements s el ph = some
      { s with
        currentEvent := some (evs ++
          (List.range NdataTypes).map (fun i => Elem.event (el i)))
        sceneZYEvent := s.sceneZYEvent ++
          (List.range NdataTypes).map
            (fun i => SceneElem.imported (Elem.event (el i)) s.zyDepth)
        sceneRphiEvent := s.sceneRphiEvent ++
          (List.range NdataTypes).map
            (fun i => SceneElem.imported (Elem.event (ph i)) s.rphiDepth) } := by
  rw [registerElements, hev]
  simp [foldl_addDefaultEventElem, foldl_addPhiEventElem, hev]

/-- Explicit description of a successful `registerElement`. -/
lemma registerElement_ok (s : MultiViewState) (e : Nat)
    (evs : List Elem) (hev : s.currentEvent = some evs) :
    registerElement s e = some
      { s with
        currentEvent := some (evs ++ [Elem.event e])
        sceneRphiEvent := s.sceneRphiEvent ++
          [SceneElem.imported (Elem.event e) s.rphiDepth]
        sceneZYEvent := s.sceneZYEvent ++
          [SceneElem.imported (Elem.event e) s.zyDepth] } := by
  rw [registerElement, hev]

/-- Every single operation keeps a neutral (zero) projection depth neutral:
the only writes to either depth are the geometry-import brackets, which end
by resetting the depth to 0. -/
lemma applyOp_preserves_neutral_depths (op : MVOp) (s s' : MultiViewState)
    (h : applyOp op s = some s') (hr : s.rphiDepth = 0) (hz : s.zyDepth = 0) :
    s'.rphiDepth = 0 ∧ s'.zyDepth = 0 := by
  cases op with
  | drawGeometry p n t r z =>
    simp only [applyOp] at h
    cases hp : p n with
    | none =>
      rw [drawGeometryForDetector, hp] at h
      simp [registerGeometry, Except.toOption] at h
    | some g =>
      rw [drawGeometryForDetector_ok p s n g t r z hp] at h
      simp only [Except.toOption, Option.some.injEq] at h
      subst h
      constructor
      · cases r <;> simp [hr]
      · cases z <;> simp [hz]
  | regGeometry g t r z =>
    simp only [applyOp] at h
    cases g with
    | none =>
      simp [registerGeometry, Except.toOption] at h
    | some g =>
      rw [registerGeometry_ok s g t r z] at h
      simp only [Except.toOption, Option.some.injEq] at h
      subst h
      constructor
      · cases r <;> simp [hr]
      · cases z <;> simp [hz]
  | regElements el ph =>
    simp only [applyOp] at h
    cases hev : s.currentEvent with
    | none => rw [registerElements, hev] at h; exact absurd h (by simp)
    | some evs =>
      rw [registerElements_ok s el ph evs hev] at h
      simp only [Option.some.injEq] at h
      subst h
      exact ⟨hr, hz⟩
  | regElement e =>
    simp only [applyOp] at h
    cases hev : s.currentEvent with
    | none => rw [registerElement, hev] at h; exact absurd h (by simp)
    | some evs =>
      rw [registerElement_ok s e evs hev] at h
      simp only [Option.some.injEq] at h
      subst h
      exact ⟨hr, hz⟩
  | destroyGeoms =>
    simp only [applyOp, Option.some.injEq] at h
    subst h
    exact ⟨hr, hz⟩
  | destroyEvents =>
    simp only [applyOp, Option.some.injEq] at h
    subst h
    cases hev : s.currentEvent <;> simp [destroyAllEvents, hev, hr, hz]
  | redraw =>
    simp only [applyOp, Option.some.injEq] at h
    subst h
    exact ⟨hr, hz⟩
  | engineSetCurrentEvent evs =>
    simp only [applyOp, Option.some.injEq] at h
    subst h
    exact ⟨hr, hz⟩

/-- Running any operation sequence from a state with neutral depths ends
with neutral depths. -/
lemma runOps_preserves_neutral_depths (ops : List MVOp) (s s' : MultiViewState)
    (h : runOps ops s = some s') (hr : s.rphiDepth = 0) (hz : s.zyDepth = 0) :
    s'.rphiDepth = 0 ∧ s'.zyDepth = 0 := by
  induction ops generalizing s with
  | nil =>
    simp only [runOps, Option.some.injEq] at h
    subst h
    exact ⟨hr, hz⟩
  | cons op ops ih =>
    simp only [runOps, Option.bind_eq_some] at h
    obtain ⟨s1, h1, h2⟩ := h
    obtain ⟨hr1, hz1⟩ := applyOp_preserves_neutral_depths op s s1 h1 hr hz
    exact ih s1 h2 hr1 hz1

/-- Every reachable state has both projection depths equal to the neutral
value 0: the constructor initialises them to 0 and every operation preserves
that. -/
lemma reachable_neutral_depths (s : MultiViewState) (h : Reachable s) :
    s.rphiDepth = 0 ∧ s.zyDepth = 0 := by
  obtain ⟨showAxes, ops, hrun⟩ := h
  exact runOps_preserves_neutral_depths ops (initState showAxes) s hrun rfl rfl

/-! ### Concrete instances used by witnesses -/

/-- A sample detector shape. -/
def tpcShape : TEveGeoShape := { elementName := "TPC", shapeId := 0 }

/-- The post-constructor state with axes disabled. -/
def st0 : MultiViewState := initState false

/-- The result of registering `tpcShape` into the R-Phi scene only from
`st0`. -/
def st1 : MultiViewState :=
  { st0 with
    sceneRphiGeom := [SceneElem.imported (Elem.shape tpcShape) (-10)]
    rphiDepth := 0 }

/-! ### Claims -/

/-- C1: for every reachable pre-call state (hence every depth value the
R-Phi projection actually has before the call), a registration with
`intoRPhi = true` — through `registerGeometry` or through
`drawGeometryForDetector` — leaves the R-Phi projection depth equal to its
pre-call value, the import into the R-Phi geometry scene having happened at
depth -10 (recorded on the imported entry) with the depth reset afterwards;
and the analogous statement for `intoZY = true` with the Z-Y projection. -/
theorem C1_geometry_depth_bracket (s : MultiViewState) (hr : Reachable s)
    (g : TEveGeoShape) :
    (∀ threeD zy s', registerGeometry s (some g) threeD true zy = Except.ok s' →
        s'.rphiDepth = s.rphiDepth ∧
        s'.sceneRphiGeom = s.sceneRphiGeom ++ [SceneElem.imported (Elem.shape g) (-10)]) ∧
    (∀ threeD rPhi s', registerGeometry s (some g) threeD rPhi true = Except.ok s' →
        s'.zyDepth = s.zyDepth ∧
        s'.sceneZYGeom = s.sceneZYGeom ++ [SceneElem.imported (Elem.shape g) (-10)]) ∧
    (∀ p n threeD zy s', p n = some g →
        drawGeometryForDetector p s n threeD true zy = Except.ok s' →
        s'.rphiDepth = s.rphiDepth ∧
        s'.sceneRphiGeom = s.sceneRphiGeom ++ [SceneElem.imported (Elem.shape g) (-10)]) ∧
    (∀ p n threeD rPhi s', p n = some g →
        drawGeometryForDetector p s n threeD rPhi true = Except.ok s' →
        s'.zyDepth = s.zyDepth ∧
        s'.sceneZYGeom = s.sceneZYGeom ++ [SceneElem.imported (Elem.shape g) (-10)]) := by
  obtain ⟨hr0, hz0⟩ := reachable_neutral_depths s hr
  refine ⟨?_, ?_, ?_, ?_⟩
  · intro threeD zy s' h
    rw [registerGeometry_ok] at h
    injection h with h
    subst h
    exact ⟨by simp [hr0], by simp⟩
  · intro threeD rPhi s' h
    rw [registerGeometry_ok] at h
    injection h with h
    subst h
    exact ⟨by simp [hz0], by simp⟩
  · intro p n threeD zy s' hp h
    rw [drawGeometryForDetector_ok p s n g threeD true zy hp] at h
    injection h with h
    subst h
    exact ⟨by simp [hr0], by simp⟩
  · intro p n threeD rPhi s' hp h
    rw [drawGeometryForDetector_ok p s n g threeD rPhi true hp] at h
    injection h with h
    subst h
    exact ⟨by simp [hz0], by simp⟩

/-- Witness for C1 at the post-constructor state and a concrete shape. -/
theorem C1_geometry_depth_bracket_witness :
    registerGeometry st0 (some tpcShape) false true false = Except.ok st1 ∧
    st1.rphiDepth = st0.rphiDepth ∧
    st1.sceneRphiGeom = st0.sceneRphiGeom ++ [SceneElem.imported (Elem.shape tpcShape) (-10)] :=
  ⟨rfl, (C1_geometry_depth_bracket st0 ⟨false, [], rfl⟩ tpcShape).1 false false st1 rfl⟩

/-- C2: registering a null shape — directly, or through
`drawGeometryForDetector` when the provider resolves nothing — logs the
error message and terminates the process carrying the pre-call state
unchanged (no scene or lookup-list mutation happened first), and in
particular never returns a normal (`ok`) result. -/
theorem C2_null_geometry_fatal (s : MultiViewState) (threeD rPhi zy : Bool) :
    registerGeometry s none threeD rPhi zy =
      Except.error ("MultiView::registerGeometry -- geometry is NULL!", s) ∧
    (∀ provider detectorName, provider detectorName = none →
        drawGeometryForDetector provider s detectorName threeD rPhi zy =
          Except.error ("MultiView::registerGeometry -- geometry is NULL!", s)) := by
  refine ⟨rfl, ?_⟩
  intro provider detectorName hp
  rw [drawGeometryForDetector, hp]
  rfl

/-- Witness for C2 with a provider stub that resolves no detector. -/
theorem C2_null_geometry_fatal_witness :
    drawGeometryForDetector (fun _ => none) st0 "TPC" true true true =
      Except.error ("MultiView::registerGeometry -- geometry is NULL!", st0) :=
  (C2_null_geometry_fatal st0 true true true).2 (fun _ => none) "TPC" rfl

/-- C4: `destroyAllGeometries` empties the lookup list and all three
geometry scenes, and it is the single state transition written out in the
last conjunct — list and scene clearing happen in that one step, so no state
with one cleared and not the other is ever produced. -/
theorem C4_destroyAllGeometries_clears (s : MultiViewState) :
    (destroyAllGeometries s).mDetectors = [] ∧
    (destroyAllGeometries s).scene3dGeom = [] ∧
    (destroyAllGeometries s).sceneRphiGeom = [] ∧
    (destroyAllGeometries s).sceneZYGeom = [] ∧
    destroyAllGeometries s =
      { s with scene3dGeom := [], sceneRphiGeom := [], sceneZYGeom := [],
               mDetectors := [] } :=
  ⟨rfl, rfl, rfl, rfl, rfl⟩

/-- C7: a registration with `intoThreeD = true`, `intoRPhi = false` and
`intoZY = false` leaves the R-Phi and Z-Y geometry scenes unchanged; the
shape is added to the 3D geometry scene only and (in the
`drawGeometryForDetector` form) appended to the lookup list. -/
theorem C7_threeD_only_registration (s : MultiViewState) (g : TEveGeoShape) :
    (∀ s', registerGeometry s (some g) true false false = Except.ok s' →
        s'.sceneRphiGeom = s.sceneRphiGeom ∧ s'.sceneZYGeom = s.sceneZYGeom ∧
        s'.scene3dGeom = s.scene3dGeom ++ [SceneElem.direct (Elem.shape g)] ∧
        s'.mDetectors = s.mDetectors ∧ s'.sceneRphiEvent = s.sceneRphiEvent ∧
        s'.sceneZYEvent = s.sceneZYEvent) ∧
    (∀ p n s', p n = some g →
        drawGeometryForDetector p s n true false false = Except.ok s' →
        s'.sceneRphiGeom = s.sceneRphiGeom ∧ s'.sceneZYGeom = s.sceneZYGeom ∧
        s'.scene3dGeom = s.scene3dGeom ++ [SceneElem.direct (Elem.shape g)] ∧
        s'.mDetectors = s.mDetectors ++ [g]) := by
  constructor
  · intro s' h
    rw [registerGeometry_ok] at h
    injection h with h
    subst h
    simp
  · intro p n s' hp h
    rw [drawGeometryForDetector_ok p s n g true false false hp] at h
    injection h with h
    subst h
    simp

/-- Witness for C7 at the post-constructor state and a concrete shape. -/
theorem C7_threeD_only_registration_witness :
    drawGeometryForDetector (fun _ => some tpcShape) st0 "TPC" true false false =
      Except.ok { st0 with scene3dGeom := [SceneElem.direct (Elem.shape tpcShape)],
                           mDetectors := [tpcShape] } ∧
    st0.sceneRphiGeom = st0.sceneRphiGeom ∧ st0.sceneZYGeom = st0.sceneZYGeom :=
  ⟨rfl,
   ((C7_threeD_only_registration st0 tpcShape).2 (fun _ => some tpcShape) "TPC"
      { st0 with scene3dGeom := [SceneElem.direct (Elem.shape tpcShape)],
                 mDetectors := [tpcShape] } rfl rfl).1 ▸ ⟨rfl, rfl⟩⟩

/-- C10: `destroyAllEvents` always clears both projected event scenes —
also when no current event container exists — and leaves the lookup list,
the three geometry scenes and both projection depths unchanged. -/
theorem C10_destroyAllEvents_frame (s : MultiViewState) :
    (destroyAllEvents s).sceneRphiEvent = [] ∧
    (destroyAllEvents s).sceneZYEvent = [] ∧
    (destroyAllEvents s).mDetectors = s.mDetectors ∧
    (destroyAllEvents s).scene3dGeom = s.scene3dGeom ∧
    (destroyAllEvents s).sceneRphiGeom = s.sceneRphiGeom ∧
    (destroyAllEvents s).sceneZYGeom = s.sceneZYGeom ∧
    (destroyAllEvents s).rphiDepth = s.rphiDepth ∧
    (destroyAllEvents s).zyDepth = s.zyDepth ∧
    (s.currentEvent = none →
      destroyAllEvents s = { s with sceneRphiEvent := [], sceneZYEvent := [] }) := by
  cases hev : s.currentEvent <;>
    simp [destroyAllEvents, hev]

/-- Witness for C10 at a state with no current event container. -/
theorem C10_destroyAllEvents_frame_witness :
    destroyAllEvents st0 = { st0 with sceneRphiEvent := [], sceneZYEvent := [] } :=
  (C10_destroyAllEvents_frame st0).2.2.2.2.2.2.2.2 rfl

/-- The name scan of `getDetectorGeometry` on a list that splits as
`l1 ++ g :: l2`, with no name match in `l1` and `g` matching, finds `g`. -/
lemma find?_name_split (x : String) (l1 : List TEveGeoShape) (g : TEveGeoShape)
    (l2 : List TEveGeoShape) (hg : g.elementName = x)
    (h1 : ∀ g' ∈ l1, g'.elementName ≠ x) :
    (l1 ++ g :: l2).find? (fun t => t.elementName == x) = some g := by
  induction l1 with
  | nil =>
    simp [List.find?_cons_of_pos, hg]
  | cons a l ih =>
    rw [List.cons_append, List.find?_cons_of_neg]
    · exact ih (fun g' hg' => h1 g' (List.mem_cons_of_mem a hg'))
    · simp [h1 a (List.mem_cons_self a l)]

/-- C3: `getDetectorGeometry` is the linear name scan of the lookup list —
it returns the first-inserted match when duplicates exist (first split
conjunct), the unique registered shape when exactly one entry carries the
name (that is the split with no other match on either side), a not-found
signal when no entry carries the name or right after `destroyAllGeometries`,
and, after a completed registration of a shape named `x` into a list that
held no such name, that most recently registered shape. -/
theorem C3_getDetectorGeometry_lookup (s : MultiViewState) (x : String) :
    (∀ l1 g l2, s.mDetectors = l1 ++ g :: l2 → g.elementName = x →
        (∀ g' ∈ l1, g'.elementName ≠ x) → getDetectorGeometry s x = some g) ∧
    ((∀ g ∈ s.mDetectors, g.elementName ≠ x) → getDetectorGeometry s x = none) ∧
    getDetectorGeometry (destroyAllGeometries s) x = none ∧
    (∀ p t r z g s', p x = some g → g.elementName = x →
        (∀ g' ∈ s.mDetectors, g'.elementName ≠ x) →
        drawGeometryForDetector p s x t r z = Except.ok s' →
        getDetectorGeometry s' x = some g) := by
  refine ⟨?_, ?_, rfl, ?_⟩
  · intro l1 g l2 hsplit hg h1
    rw [getDetectorGeometry, hsplit]
    exact find?_name_split x l1 g l2 hg h1
  · intro hnone
    rw [getDetectorGeometry, List.find?_eq_none]
    intro g hgmem
    simp [hnone g hgmem]
  · intro p t r z g s' hp hg hnone h
    rw [drawGeometryForDetector_ok p s x g t r z hp] at h
    injection h with h
    subst h
    rw [getDetectorGeometry]
    exact find?_name_split x s.mDetectors g [] hg hnone

/-- Witness for C3: a fresh registration of the TPC shape is found again by
name. -/
theorem C3_getDetectorGeometry_lookup_witness :
    getDetectorGeometry
      { st0 with scene3dGeom := [SceneElem.direct (Elem.shape tpcShape)],
                 mDetectors := [tpcShape] } "TPC" = some tpcShape :=
  (C3_getDetectorGeometry_lookup st0 "TPC").2.2.2 (fun _ => some tpcShape)
    true false false tpcShape
    { st0 with scene3dGeom := [SceneElem.direct (Elem.shape tpcShape)],
               mDetectors := [tpcShape] }
    rfl rfl (by simp [st0, initState]) rfl

/-- Each successful `drawGeometryForDetector` step grows the lookup list by
exactly one entry; a whole sequence of them grows it by its length. -/
lemma runOps_draw_length (ops : List MVOp) (s s' : MultiViewState)
    (hdraw : ∀ op ∈ ops, ∃ p n t r z, op = MVOp.drawGeometry p n t r z)
    (hrun : runOps ops s = some s') :
    s'.mDetectors.length = s.mDetectors.length + ops.length := by
  induction ops generalizing s with
  | nil =>
    simp only [runOps, Option.some.injEq] at hrun
    subst hrun
    simp
  | cons op ops ih =>
    obtain ⟨p, n, t, r, z, rfl⟩ := hdraw op (List.mem_cons_self op ops)
    simp only [runOps, Option.bind_eq_some] at hrun
    obtain ⟨s1, h1, h2⟩ := hrun
    simp only [applyOp] at h1
    cases hp : p n with
    | none =>
      rw [drawGeometryForDetector, hp] at h1
      simp [registerGeometry, Except.toOption] at h1
    | some g =>
      rw [drawGeometryForDetector_ok p s n g t r z hp] at h1
      simp only [Except.toOption, Option.some.injEq] at h1
      subst h1
      have hlen := ih _ (fun op hop => hdraw op (List.mem_cons_of_mem _ hop)) h2
      simp only [List.length_append, List.length_cons, List.length_nil] at hlen
      simp only [List.length_cons]
      omega

/-- C5: after any sequence of N completed `drawGeometryForDetector` calls
(success implies each provider call resolved a shape) from a state with an
empty lookup list, with no intervening `destroyAllGeometries`, the lookup
list has exactly N entries, whatever the three scene flags were. -/
theorem C5_registration_count (ops : List MVOp) (s s' : MultiViewState)
    (hdraw : ∀ op ∈ ops, ∃ p n t r z, op = MVOp.drawGeometry p n t r z)
    (hrun : runOps ops s = some s') (hempty : s.mDetectors = []) :
    s'.mDetectors.length = ops.length := by
  have h := runOps_draw_length ops s s' hdraw hrun
  rw [hempty] at h
  simpa using h

/-- Witness for C5: two completed draws with different flags from the
post-constructor state leave a lookup list of length two. -/
theorem C5_registration_count_witness :
    ({ st0 with
        scene3dGeom := [SceneElem.direct (Elem.shape tpcShape)]
        sceneRphiGeom := [SceneElem.imported (Elem.shape { elementName := "ITS", shapeId := 1 }) (-10)]
        sceneZYGeom := [SceneElem.imported (Elem.shape { elementName := "ITS", shapeId := 1 }) (-10)]
        rphiDepth := 0
        zyDepth := 0
        mDetectors := [tpcShape, { elementName := "ITS", shapeId := 1 }] } :
      MultiViewState).mDetectors.length =
    ([MVOp.drawGeometry (fun _ => some tpcShape) "TPC" true false false,
      MVOp.drawGeometry (fun _ => some { elementName := "ITS", shapeId := 1 }) "ITS" false true true] :
      List MVOp).length := by
  refine C5_registration_count _ st0 _ ?_ rfl rfl
  intro op hop
  rcases List.mem_cons.mp hop with rfl | hop
  · exact ⟨_, _, _, _, _, rfl⟩
  rcases List.mem_cons.mp hop with rfl | hop
  · exact ⟨_, _, _, _, _, rfl⟩
  · exact absurd hop (List.not_mem_nil op)

/-- A state with an (empty) current event container installed by the render
engine, used by the event-registration witnesses. -/
def stEv : MultiViewState := { st0 with currentEvent := some [] }

/-- C6: a completed `registerElements` call adds exactly the `NdataTypes`
default-variant elements to the current event container and imports exactly
them into the Z-Y event scene through the Z-Y projection, and imports
exactly the `NdataTypes` phi-variant elements into the R-Phi event scene
through the R-Phi projection — phi-set content to R-Phi, default-set content
to Z-Y, each scene growing by exactly `NdataTypes` entries. -/
theorem C6_registerElements_content (s : MultiViewState) (el ph : Nat → Nat)
    (evs : List Elem) (hev : s.currentEvent = some evs) :
    ∀ s', registerElements s el ph = some s' →
      s'.currentEvent = some (evs ++
        (List.range NdataTypes).map (fun i => Elem.event (el i))) ∧
      s'.sceneZYEvent = s.sceneZYEvent ++
        (List.range NdataTypes).map
          (fun i => SceneElem.imported (Elem.event (el i)) s.zyDepth) ∧
      s'.sceneRphiEvent = s.sceneRphiEvent ++
        (List.range NdataTypes).map
          (fun i => SceneElem.imported (Elem.event (ph i)) s.rphiDepth) ∧
      s'.sceneZYEvent.length = s.sceneZYEvent.length + NdataTypes ∧
      s'.sceneRphiEvent.length = s.sceneRphiEvent.length + NdataTypes := by
  intro s' h
  rw [registerElements_ok s el ph evs hev] at h
  injection h with h
  subst h
  simp

/-- The result of `registerElements` on `stEv` with default elements
`0, 1, 2` and phi elements `10, 11, 12`. -/
def stC6 : MultiViewState :=
  { stEv with
    currentEvent := some ((List.range NdataTypes).map Elem.event)
    sceneZYEvent := (List.range NdataTypes).map
      (fun i => SceneElem.imported (Elem.event i) 0)
    sceneRphiEvent := (List.range NdataTypes).map
      (fun i => SceneElem.imported (Elem.event (i + 10)) 0) }

/-- Witness for C6 on a state with an empty current event container. -/
theorem C6_registerElements_content_witness :
    registerElements stEv (fun i => i) (fun i => i + 10) = some stC6 ∧
    stC6.sceneZYEvent.length = stEv.sceneZYEvent.length + NdataTypes ∧
    stC6.sceneRphiEvent.length = stEv.sceneRphiEvent.length + NdataTypes := by
  obtain ⟨h1, h2, h3, h4, h5⟩ :=
    C6_registerElements_content stEv (fun i => i) (fun i => i + 10) [] rfl stC6
      (by rfl)
  exact ⟨by rfl, h4, h5⟩

/-- C8: neither `registerElements` nor `registerElement` changes the
current depth of either projection manager, and every event import is
recorded at the depth active at call time. -/
theorem C8_event_registration_depth_frame (s : MultiViewState) :
    (∀ el ph s', registerElements s el ph = some s' →
        s'.rphiDepth = s.rphiDepth ∧ s'.zyDepth = s.zyDepth ∧
        s'.sceneRphiEvent = s.sceneRphiEvent ++
          (List.range NdataTypes).map
            (fun i => SceneElem.imported (Elem.event (ph i)) s.rphiDepth) ∧
        s'.sceneZYEvent = s.sceneZYEvent ++
          (List.range NdataTypes).map
            (fun i => SceneElem.imported (Elem.event (el i)) s.zyDepth)) ∧
    (∀ e s', registerElement s e = some s' →
        s'.rphiDepth = s.rphiDepth ∧ s'.zyDepth = s.zyDepth ∧
        s'.sceneRphiEvent = s.sceneRphiEvent ++
          [SceneElem.imported (Elem.event e) s.rphiDepth] ∧
        s'.sceneZYEvent = s.sceneZYEvent ++
          [SceneElem.imported (Elem.event e) s.zyDepth]) := by
  constructor
  · intro el ph s' h
    cases hev : s.currentEvent with
    | none => rw [registerElements, hev] at h; exact absurd h (by simp)
    | some evs =>
      rw [registerElements_ok s el ph evs hev] at h
      injection h with h
      subst h
      simp
  · intro e s' h
    cases hev : s.currentEvent with
    | none => rw [registerElement, hev] at h; exact absurd h (by simp)
    | some evs =>
      rw [registerElement_ok s e evs hev] at h
      injection h with h
      subst h
      simp

/-- Witness for C8 through the single-element form. -/
theorem C8_event_registration_depth_frame_witness :
    ∃ s', registerElement stEv 5 = some s' ∧
      s'.rphiDepth = stEv.rphiDepth ∧ s'.zyDepth = stEv.zyDepth := by
  obtain ⟨h1, h2, h3, h4⟩ :=
    (C8_event_registration_depth_frame stEv).2 5
      { stEv with
        currentEvent := some [Elem.event 5]
        sceneRphiEvent := [SceneElem.imported (Elem.event 5) 0]
        sceneZYEvent := [SceneElem.imported (Elem.event 5) 0] }
      (by rfl)
  exact ⟨_, by rfl, h1, h2⟩

/-- C9: `getInstance` runs the constructor exactly once on first access
(the fresh-identity supply advances by one and the singleton points at the
new instance), returns the existing instance unchanged on every later call,
and no exposed operation — only the constructor and destruction are outside
them — writes the static singleton pointer. -/
theorem C9_singleton_contract (g : GlobalState) :
    (g.sInstance = none →
      getInstance g =
        ({ sInstance := some g.nextId, nextId := g.nextId + 1 }, some g.nextId)) ∧
    (∀ i, g.sInstance = some i → getInstance g = (g, some i)) ∧
    getInstance (getInstance g).1 = ((getInstance g).1, (getInstance g).2) ∧
    (∀ op s s', s.global = g → applySysOp op s = some s' → s'.global = g) := by
  refine ⟨?_, ?_, ?_, ?_⟩
  · intro h
    simp [getInstance, h, constructMultiView]
  · intro i h
    simp [getInstance, h]
  · cases h : g.sInstance <;>
      simp [getInstance, h, constructMultiView]
  · intro op s s' hg h
    rw [applySysOp] at h
    cases ha : applyOp op s.view with
    | none => rw [ha] at h; exact absurd h (by simp)
    | some v =>
      rw [ha] at h
      injection h with h
      subst h
      exact hg

/-- Witness for C9 at a fresh global state: first access constructs the
instance, the second access returns it unchanged, and a `redraw` step on
the system state leaves the singleton pointer alone. -/
theorem C9_singleton_contract_witness :
    getInstance { sInstance := none, nextId := 0 } =
      ({ sInstance := some 0, nextId := 1 }, some 0) ∧
    getInstance { sInstance := some 0, nextId := 1 } =
      ({ sInstance := some 0, nextId := 1 }, some 0) ∧
    (SystemState.mk { sInstance := some 0, nextId := 1 } st0).global =
      { sInstance := some 0, nextId := 1 } :=
  ⟨(C9_singleton_contract { sInstance := none, nextId := 0 }).1 rfl,
   (C9_singleton_contract { sInstance := some 0, nextId := 1 }).2.1 0 rfl,
   (C9_singleton_contract { sInstance := some 0, nextId := 1 }).2.2.2
     MVOp.redraw (SystemState.mk { sInstance := some 0, nextId := 1 } st0)
     (SystemState.mk { sInstance := some 0, nextId := 1 } st0) rfl rfl⟩

end O2MultiView
